import Mathlib

/-
Verification of the fr-pmx-builder graph-wiring orchestrator.

The Rust source (src/src/builder.rs, src/src/main.rs) is shallowly embedded:
each wiring function is translated to a pure Lean function that returns the
list of `CreateLinkByNameRequest` values it would send to the graph engine
(plus, where a property needs them, the log lines it emits).  The three
external services (registry, factory, graph engine) are abstracted as the
data their RPCs return, collected in an `Env` record; RPC transport is
assumed to succeed, so the only failure modelled is a Rust panic from
`Option::unwrap`, represented by an `Option.none` result.
-/

namespace PmxBuilder

/-- `PmxInputType` from the generated protobuf types: an input is unconnected,
mono, or stereo. -/
inductive PmxInputType where
  | none
  | monoInput
  | stereoInput
deriving DecidableEq, Repr

/-- `PmxChannelStripType` from the generated protobuf types. -/
inductive PmxChannelStripType where
  | basic
  | crossFaded
deriving DecidableEq, Repr

/-- `PmxInput`: the fields of the registry input record read by builder.rs. -/
structure PmxInput where
  name : String
  input_type : PmxInputType
  left_port_path : Option String
  right_port_path : Option String
  group_channel_strip_name : String
deriving DecidableEq, Repr

/-- `pmx.factory.channel_strip.PmxChannelStrip`: the fields read by builder.rs.
`cross_fader_plugin_id` is optional in the proto (builder.rs unwraps it). -/
structure PmxChannelStrip where
  id : Nat
  name : String
  channel_type : PmxChannelStripType
  cross_fader_plugin_id : Option Nat
  gain_plugin_id : Nat
  saturator_plugin_id : Nat
deriving DecidableEq, Repr

/-- `pmx.channel_strip.PmxChannelStrip` (registry variant), as read by
`connect_group_channel_strips_to_output_stage_channels`. -/
structure RegistryChannelStrip where
  id : Nat
  saturator_plugin_id : Nat
deriving DecidableEq, Repr

/-- `PmxLooper`: builder.rs only reads its `loop_number`. -/
structure PmxLooper where
  loop_number : Nat
deriving DecidableEq, Repr

/-- `PmxOutputStage`: the fields read by builder.rs. -/
structure PmxOutputStage where
  cross_fader_plugin_id : Nat
  left_channel_strip_id : Nat
  right_channel_strip_id : Nat
deriving DecidableEq, Repr

/-- `PmxOutput`: a configured physical output with optional port paths. -/
structure PmxOutput where
  left_port_path : Option String
  right_port_path : Option String
deriving DecidableEq, Repr

/-- `PmxPlugin`: id and graph-node name. -/
structure PmxPlugin where
  id : Nat
  name : String
deriving DecidableEq, Repr

/-- `pmx.pipewire.port.ListPort`: the fields read by builder.rs. -/
structure ListPort where
  id : Nat
  path : String
  node_id : Nat
deriving DecidableEq, Repr

/-- `pmx.pipewire.node.ListNode`: the fields read by builder.rs. -/
structure ListNode where
  object_serial : Nat
  name : String
deriving DecidableEq, Repr

/-- `CreateChannelStripRequest` sent to the factory. -/
structure CreateChannelStripRequest where
  name : String
  channel_type : PmxChannelStripType
deriving DecidableEq, Repr

/-- `CreateLinkByNameRequest` sent to the graph engine. -/
structure CreateLinkByNameRequest where
  output_port_id : Nat
  input_port_id : Nat
  output_node_name : String
  input_node_name : String
deriving DecidableEq, Repr

/-- Rust `list.iter().find(|a| pred a key.unwrap())` as written in builder.rs:
the `unwrap` runs inside the closure, so it panics (modelled as the outer
`Option.none`) exactly when the list is nonempty and `key` is empty; on an
empty list the closure is never evaluated and no panic occurs. -/
def find_with_unwrap (l : List α) (key : Option β) (pred : α → β → Bool) :
    Option (Option α) :=
  match l with
  | [] => some Option.none
  | _ :: _ =>
    match key with
    | Option.none => Option.none
    | some k => some (l.find? (fun a => pred a k))

/-- The `CreateChannelStripRequest` built for one input in
`build_channel_strips` (builder.rs lines 41 to 44). -/
def channel_strip_request (channel : PmxInput) : CreateChannelStripRequest :=
  { name := channel.name, channel_type := PmxChannelStripType.crossFaded }

/-- builder.rs `build_channel_strips`: one factory request per input, in input
order; returns the requests issued and the strips the factory returned. -/
def build_channel_strips (factory : CreateChannelStripRequest → PmxChannelStrip)
    (input_channels : List PmxInput) :
    List CreateChannelStripRequest × List PmxChannelStrip :=
  let requests := input_channels.map channel_strip_request
  (requests, requests.map factory)

/-- builder.rs `build_group_channel_strips`: the four fixed group buses, in
the order Drums, Bass, Melody, Atmos, all cross-faded. -/
structure GroupChannelStrips where
  drums : PmxChannelStrip
  bass : PmxChannelStrip
  melody : PmxChannelStrip
  atmos : PmxChannelStrip
deriving DecidableEq, Repr

def build_group_channel_strips
    (factory : CreateChannelStripRequest → PmxChannelStrip) :
    List CreateChannelStripRequest × GroupChannelStrips :=
  let drums_request : CreateChannelStripRequest :=
    ⟨"Drums", PmxChannelStripType.crossFaded⟩
  let bass_request : CreateChannelStripRequest :=
    ⟨"Bass", PmxChannelStripType.crossFaded⟩
  let melody_request : CreateChannelStripRequest :=
    ⟨"Melody", PmxChannelStripType.crossFaded⟩
  let atmos_request : CreateChannelStripRequest :=
    ⟨"Atmos", PmxChannelStripType.crossFaded⟩
  ([drums_request, bass_request, melody_request, atmos_request],
   ⟨factory drums_request, factory bass_request,
    factory melody_request, factory atmos_request⟩)

/-- builder.rs `register_loopers_for_input_channels`: one
`RegisterLooperRequest` per input, with loop number equal to the 0-based
index of the input; returns the loop numbers requested and the loopers the
registry returned. -/
def register_loopers_for_input_channels (registry : Nat → PmxLooper)
    (input_channels : List PmxInput) : List Nat × List PmxLooper :=
  let requests := List.range input_channels.length
  (requests, requests.map registry)

/-- One side (left or right) of the looper-to-input wiring in builder.rs
`connect_looper_to_input`: given the result of the port lookup, resolve the
owning node and emit the request and log line for it, or nothing. -/
def looper_side (found : Option ListPort) (nodes : List ListNode)
    (mkreq : ListNode → CreateLinkByNameRequest) (mklog : ListNode → String) :
    List CreateLinkByNameRequest × List String :=
  match found with
  | some port =>
    match nodes.find? (fun n => n.object_serial == port.node_id) with
    | some node => ([mkreq node], [mklog node])
    | Option.none => ([], [])
  | Option.none => ([], [])

/-- builder.rs `connect_looper_to_input` (lines 692 to 759): returns the link
requests issued and the log lines emitted, `Option.none` when an `unwrap` of
a missing port path panics.  Note the request fields exactly as the source
writes them: the fixed node "sooperlooper" is placed in `output_node_name`
and the input's own node in `input_node_name`, while the log line states the
opposite direction. -/
def connect_looper_to_input (input : PmxInput) (looper : PmxLooper)
    (ports : List ListPort) (nodes : List ListNode) :
    Option (List CreateLinkByNameRequest × List String) :=
  let log0 := "Connecting input " ++ input.name ++ " to looper " ++
    toString looper.loop_number
  if input.input_type = PmxInputType.none then
    some ([], [log0, "Input type is None, nothing to do"])
  else
    match find_with_unwrap ports input.left_port_path (fun p s => p.path == s) with
    | Option.none => Option.none
    | some leftFound =>
      let left := looper_side leftFound nodes
        (fun node =>
          ⟨2 * looper.loop_number + 2, 0, "sooperlooper", node.name⟩)
        (fun node => "Connecting " ++ node.name ++ ":0 -> sooperlooper:" ++
          toString (looper.loop_number + 2))
      if input.input_type = PmxInputType.monoInput then
        some (left.1, log0 :: left.2)
      else
        match find_with_unwrap ports input.right_port_path
            (fun p s => p.path == s) with
        | Option.none => Option.none
        | some rightFound =>
          let right := looper_side rightFound nodes
            (fun node =>
              ⟨2 * looper.loop_number + 3, 1, "sooperlooper", node.name⟩)
            (fun node => "Connecting " ++ node.name ++ ":1 -> sooperlooper:" ++
              toString (looper.loop_number + 3))
          some (left.1 ++ right.1, log0 :: (left.2 ++ right.2))

/-- builder.rs `connect_loopers_to_inputs`: iterate `zip(inputs, loopers)`
positionally; a panic in any iteration aborts the run. -/
def connect_loopers_to_inputs (inputs : List PmxInput) (loopers : List PmxLooper)
    (nodes : List ListNode) (ports : List ListPort) :
    Option (List CreateLinkByNameRequest × List String) :=
  match inputs, loopers with
  | channel :: irest, looper :: lrest => do
    let head ← connect_looper_to_input channel looper ports nodes
    let rest ← connect_loopers_to_inputs irest lrest nodes ports
    some (head.1 ++ rest.1, head.2 ++ rest.2)
  | _, _ => some ([], [])

/-- builder.rs `connect_looper_to_channel_strip` (lines 618 to 668): skips a
Basic strip; otherwise resolves the strip's cross-fader plugin (unwrapping
its optional id inside the find closure) and issues the two looper-output
links, sooperlooper ports `loop_number + 2` and `loop_number + 3` into
cross-fader input ports 2 and 3; an unresolved plugin issues nothing. -/
def connect_looper_to_channel_strip (looper : PmxLooper)
    (channel_strip : PmxChannelStrip) (plugins : List PmxPlugin) :
    Option (List CreateLinkByNameRequest) :=
  if channel_strip.channel_type = PmxChannelStripType.basic then
    some []
  else
    match find_with_unwrap plugins channel_strip.cross_fader_plugin_id
        (fun p k => p.id == k) with
    | Option.none => Option.none
    | some found =>
      match found with
      | some plugin =>
        some [⟨looper.loop_number + 2, 2, "sooperlooper", plugin.name⟩,
              ⟨looper.loop_number + 3, 3, "sooperlooper", plugin.name⟩]
      | Option.none => some []

/-- builder.rs `connect_loopers_to_channel_strips`: iterate
`zip(loopers, channel_strips)` positionally. -/
def connect_loopers_to_channel_strips (loopers : List PmxLooper)
    (channel_strips : List PmxChannelStrip) (plugins : List PmxPlugin) :
    Option (List CreateLinkByNameRequest) :=
  match loopers, channel_strips with
  | looper :: lrest, channel_strip :: crest => do
    let head ← connect_looper_to_channel_strip looper channel_strip plugins
    let rest ← connect_loopers_to_channel_strips lrest crest plugins
    some (head ++ rest)
  | _, _ => some []

/-- The body of the `for (input, channel)` loop of builder.rs
`connect_inputs_to_channel_strips` (lines 468 to 553): `Option.none` models a
panic from an `unwrap` inside a find closure. -/
def connect_input_to_channel_strip (input : PmxInput)
    (channel : PmxChannelStrip) (plugins : List PmxPlugin)
    (ports : List ListPort) (nodes : List ListNode) :
    Option (List CreateLinkByNameRequest) :=
  if input.input_type = PmxInputType.none then
    some []
  else do
    let left_port ← find_with_unwrap ports input.left_port_path
      (fun p s => p.path == s)
    let plugin ← find_with_unwrap plugins channel.cross_fader_plugin_id
      (fun p k => p.id == k)
    let leftReqs :=
      match left_port, plugin with
      | some port, some plugin =>
        match nodes.find? (fun n => n.object_serial == port.node_id) with
        | some node => [⟨port.id, 0, node.name, plugin.name⟩]
        | Option.none => []
      | _, _ => []
    if input.input_type = PmxInputType.stereoInput then do
      let right_port ← find_with_unwrap ports input.right_port_path
        (fun p s => p.path == s)
      let rightReqs :=
        match right_port, plugin with
        | some port, some plugin =>
          match nodes.find? (fun n => n.object_serial == port.node_id) with
          | some node => [⟨port.id, 1, node.name, plugin.name⟩]
          | Option.none => []
        | _, _ => []
      some (leftReqs ++ rightReqs)
    else
      some leftReqs

/-- builder.rs `connect_inputs_to_channel_strips`: iterate
`zip(input_channels, channel_strips)` positionally. -/
def connect_inputs_to_channel_strips (input_channels : List PmxInput)
    (channel_strips : List PmxChannelStrip) (plugins : List PmxPlugin)
    (ports : List ListPort) (nodes : List ListNode) :
    Option (List CreateLinkByNameRequest) :=
  match input_channels, channel_strips with
  | input :: irest, channel :: crest => do
    let head ← connect_input_to_channel_strip input channel plugins ports nodes
    let rest ← connect_inputs_to_channel_strips irest crest plugins ports nodes
    some (head ++ rest)
  | _, _ => some []

/-- The group-name dispatch of builder.rs
`connect_channel_strips_to_group_channel_strips` (lines 378 to 387): an
exact, case-sensitive chain of string comparisons against the four fixed
bus names. -/
def group_for_name (group_channel_strips : GroupChannelStrips)
    (group_name : String) : Option PmxChannelStrip :=
  if group_name = "Drums" then some group_channel_strips.drums
  else if group_name = "Bass" then some group_channel_strips.bass
  else if group_name = "Melody" then some group_channel_strips.melody
  else if group_name = "Atmos" then some group_channel_strips.atmos
  else Option.none

/-- The body of the per-input loop of builder.rs
`connect_channel_strips_to_group_channel_strips` (lines 375 to 446):
returns the link requests issued and the log lines emitted for one input. -/
def connect_channel_strip_to_group (input_channel : PmxInput)
    (channel_strips : List PmxChannelStrip)
    (group_channel_strips : GroupChannelStrips) (plugins : List PmxPlugin) :
    List CreateLinkByNameRequest × List String :=
  let group_name := input_channel.group_channel_strip_name
  let group_channel_strip := group_for_name group_channel_strips group_name
  let channel_strip :=
    channel_strips.find? (fun c => c.name == input_channel.name)
  match group_channel_strip, channel_strip with
  | some g, some s =>
    let group_channel_plugin :=
      plugins.find? (fun p => p.id == g.saturator_plugin_id)
    let input_channel_plugin :=
      plugins.find? (fun p => p.id == s.gain_plugin_id)
    match group_channel_plugin, input_channel_plugin with
    | some gplug, some iplug =>
      ([⟨0, 0, iplug.name, gplug.name⟩, ⟨1, 1, iplug.name, gplug.name⟩],
       ["Connecting " ++ iplug.name ++ ":0 -> " ++ gplug.name ++ ":0",
        "Connecting " ++ iplug.name ++ ":1 -> " ++ gplug.name ++ ":1"])
    | _, _ => ([], ["Couldn\x27t find plugin"])
  | _, _ =>
    ([], ["Couldn\x27t find group channel " ++ group_name ++
          " for input channel " ++ input_channel.name])

/-- builder.rs `connect_channel_strips_to_group_channel_strips`: loop over
the inputs, accumulating requests and logs. -/
def connect_channel_strips_to_group_channel_strips
    (input_channels : List PmxInput) (channel_strips : List PmxChannelStrip)
    (group_channel_strips : GroupChannelStrips) (plugins : List PmxPlugin) :
    List CreateLinkByNameRequest × List String :=
  match input_channels with
  | [] => ([], [])
  | input_channel :: rest =>
    let head := connect_channel_strip_to_group input_channel channel_strips
      group_channel_strips plugins
    let tail := connect_channel_strips_to_group_channel_strips rest
      channel_strips group_channel_strips plugins
    (head.1 ++ tail.1, head.2 ++ tail.2)

/-- builder.rs `connect_plugins` (lines 345 to 365): one request per
`(output port, input port)` pair, plus the matching log lines. -/
def connect_plugins (output_plugin input_plugin : PmxPlugin)
    (connections : List (Nat × Nat)) :
    List CreateLinkByNameRequest × List String :=
  (connections.map (fun c => ⟨c.1, c.2, output_plugin.name, input_plugin.name⟩),
   connections.map (fun c => "Connecting " ++ output_plugin.name ++ ":" ++
     toString c.1 ++ " -> " ++ input_plugin.name ++ ":" ++ toString c.2))

/-- One group bus inside builder.rs
`connect_group_channel_strips_to_output_stage_channels`: with the gain
plugin resolved, connect it into both output-stage channels with port pairs
(0,0) and (1,1); otherwise just log.  (The Rust log message carries a Debug
dump of the missing entity; the dump text is elided here.) -/
def connect_group_gain (gain : Option PmxPlugin)
    (left_plugin right_plugin : PmxPlugin) (missing_log : String) :
    List CreateLinkByNameRequest × List String :=
  match gain with
  | some g =>
    let l := connect_plugins g left_plugin [(0, 0), (1, 1)]
    let r := connect_plugins g right_plugin [(0, 0), (1, 1)]
    (l.1 ++ r.1, l.2 ++ r.2)
  | Option.none => ([], [missing_log])

/-- builder.rs `connect_group_channel_strips_to_output_stage_channels`
(lines 203 to 343).  (The Rust skip logs carry Debug dumps of the missing
entities; the dump text is elided here.) -/
def connect_group_channel_strips_to_output_stage_channels
    (group_channel_strips : GroupChannelStrips)
    (output_stage : PmxOutputStage) (plugins : List PmxPlugin)
    (channel_strips : List RegistryChannelStrip) :
    List CreateLinkByNameRequest × List String :=
  let left_channel_strip :=
    channel_strips.find? (fun c => c.id == output_stage.left_channel_strip_id)
  let right_channel_strip :=
    channel_strips.find? (fun c => c.id == output_stage.right_channel_strip_id)
  match left_channel_strip, right_channel_strip with
  | some lcs, some rcs =>
    let left_plugin := plugins.find? (fun p => p.id == lcs.saturator_plugin_id)
    let right_plugin := plugins.find? (fun p => p.id == rcs.saturator_plugin_id)
    match left_plugin, right_plugin with
    | some lp, some rp =>
      let d := connect_group_gain
        (plugins.find? (fun p => p.id == group_channel_strips.drums.gain_plugin_id))
        lp rp "Couldn\x27t find drum gain plugin"
      let b := connect_group_gain
        (plugins.find? (fun p => p.id == group_channel_strips.bass.gain_plugin_id))
        lp rp "Couldn\x27t find bass gain plugin"
      let m := connect_group_gain
        (plugins.find? (fun p => p.id == group_channel_strips.melody.gain_plugin_id))
        lp rp "Couldn\x27t find melody gain plugin"
      let a := connect_group_gain
        (plugins.find? (fun p => p.id == group_channel_strips.atmos.gain_plugin_id))
        lp rp "Couldn\x27t find atmos gain plugin"
      (d.1 ++ b.1 ++ m.1 ++ a.1, d.2 ++ b.2 ++ m.2 ++ a.2)
    | _, _ => ([], ["Couldn\x27t find a plugin"])
  | _, _ => ([], ["Couldn\x27t find a channel strip"])

/-- One output channel inside builder.rs `connect_output_stage_to_outputs`
(lines 136 to 199): resolve both port paths, then both owning nodes, then
issue the two requests exactly as the source writes them; note both
requests carry `output_port_id` 0 (lines 157 and 174). -/
def connect_output_channel (cross_fader_plugin : PmxPlugin)
    (output_channel : PmxOutput) (ports : List ListPort)
    (nodes : List ListNode) : List CreateLinkByNameRequest :=
  match output_channel.left_port_path, output_channel.right_port_path with
  | some left_path, some right_path =>
    match ports.find? (fun p => p.path == left_path),
          ports.find? (fun p => p.path == right_path) with
    | some left_port, some right_port =>
      match nodes.find? (fun n => n.object_serial == left_port.node_id),
            nodes.find? (fun n => n.object_serial == right_port.node_id) with
      | some left_node, some right_node =>
        [⟨0, left_port.id, cross_fader_plugin.name, left_node.name⟩,
         ⟨0, right_port.id, cross_fader_plugin.name, right_node.name⟩]
      | _, _ => []
    | _, _ => []
  | _, _ => []

/-- The per-output loop of builder.rs `connect_output_stage_to_outputs`. -/
def connect_output_channels_loop (cross_fader_plugin : PmxPlugin)
    (output_channels : List PmxOutput) (ports : List ListPort)
    (nodes : List ListNode) : List CreateLinkByNameRequest :=
  match output_channels with
  | [] => []
  | oc :: rest =>
    connect_output_channel cross_fader_plugin oc ports nodes ++
      connect_output_channels_loop cross_fader_plugin rest ports nodes

/-- builder.rs `connect_output_stage_to_outputs` (lines 122 to 201): nothing
at all is issued when the output stage's cross-fader plugin is absent from
the snapshot. -/
def connect_output_stage_to_outputs (output_stage : PmxOutputStage)
    (output_channels : List PmxOutput) (ports : List ListPort)
    (nodes : List ListNode) (plugins : List PmxPlugin) :
    List CreateLinkByNameRequest :=
  match plugins.find? (fun p => p.id == output_stage.cross_fader_plugin_id) with
  | some cross_fader_plugin =>
    connect_output_channels_loop cross_fader_plugin output_channels ports nodes
  | Option.none => []

/-- The external collaborators of one pipeline run (registry, factory, graph
engine), abstracted as the data their RPCs return.  The three plugin lists
model the three `get_plugins` snapshots main.rs takes (before input wiring,
after group provisioning, after output-stage provisioning). -/
structure Env where
  inputs : List PmxInput
  factory_strip : CreateChannelStripRequest → PmxChannelStrip
  factory_output_stage : String → PmxOutputStage
  registry_looper : Nat → PmxLooper
  plugins1 : List PmxPlugin
  plugins2 : List PmxPlugin
  plugins3 : List PmxPlugin
  registry_channel_strips : List RegistryChannelStrip
  outputs : List PmxOutput
  ports : List ListPort
  nodes : List ListNode

/-- Everything one run of `build_pmx` (main.rs lines 90 to 188) creates and
sends, stage by stage, including the positional pairings the looper wiring
loops iterate over. -/
structure BuildResult where
  channel_strip_requests : List CreateChannelStripRequest
  channel_strips : List PmxChannelStrip
  input_strip_links : List CreateLinkByNameRequest
  looper_requests : List Nat
  loopers : List PmxLooper
  looper_input_pairs : List (PmxInput × PmxLooper)
  looper_input_links : List CreateLinkByNameRequest
  looper_input_logs : List String
  looper_strip_pairs : List (PmxLooper × PmxChannelStrip)
  looper_strip_links : List CreateLinkByNameRequest
  group_requests : List CreateChannelStripRequest
  group_channel_strips : GroupChannelStrips
  group_links : List CreateLinkByNameRequest
  group_logs : List String
  output_stage_requests : List String
  output_stage : PmxOutputStage
  group_output_links : List CreateLinkByNameRequest
  group_output_logs : List String
  output_links : List CreateLinkByNameRequest
deriving DecidableEq, Repr

/-- main.rs `build_pmx`: the full pipeline in source order; `Option.none`
models a run aborted by a panic inside a wiring stage. -/
def build_pmx (env : Env) : Option BuildResult := do
  let input_channels := env.inputs
  let strips := build_channel_strips env.factory_strip input_channels
  let plugins := env.plugins1
  let ports := env.ports
  let nodes := env.nodes
  let input_strip_links ← connect_inputs_to_channel_strips input_channels
    strips.2 plugins ports nodes
  let loopers := register_loopers_for_input_channels env.registry_looper
    input_channels
  let looper_input ← connect_loopers_to_inputs input_channels loopers.2
    nodes ports
  let looper_strip_links ← connect_loopers_to_channel_strips loopers.2
    strips.2 plugins
  let groups := build_group_channel_strips env.factory_strip
  let plugins2 := env.plugins2
  let group_stage := connect_channel_strips_to_group_channel_strips
    input_channels strips.2 groups.2 plugins2
  let output_stage := env.factory_output_stage "Output Stage"
  let plugins3 := env.plugins3
  let all_channel_strips := env.registry_channel_strips
  let group_output := connect_group_channel_strips_to_output_stage_channels
    groups.2 output_stage plugins3 all_channel_strips
  let output_channels := env.outputs
  let output_links := connect_output_stage_to_outputs output_stage
    output_channels ports nodes plugins3
  some { channel_strip_requests := strips.1
         channel_strips := strips.2
         input_strip_links := input_strip_links
         looper_requests := loopers.1
         loopers := loopers.2
         looper_input_pairs := input_channels.zip loopers.2
         looper_input_links := looper_input.1
         looper_input_logs := looper_input.2
         looper_strip_pairs := loopers.2.zip strips.2
         looper_strip_links := looper_strip_links
         group_requests := groups.1
         group_channel_strips := groups.2
         group_links := group_stage.1
         group_logs := group_stage.2
         output_stage_requests := ["Output Stage"]
         output_stage := output_stage
         group_output_links := group_output.1
         group_output_logs := group_output.2
         output_links := output_links }

/-- A factory behaving as specified in the design document: the strip echoes
the requested name and type, with fixed plugin ids. -/
def plain_factory (request : CreateChannelStripRequest) : PmxChannelStrip :=
  ⟨1, request.name, request.channel_type, some 10, 20, 30⟩

/-- A registry behaving as specified: the looper carries the requested loop
number. -/
def plain_registry_looper (loop_number : Nat) : PmxLooper :=
  ⟨loop_number⟩

/-- An environment whose registry returns zero inputs and whose snapshot
lists are all empty. -/
def emptyEnv : Env :=
  { inputs := []
    factory_strip := plain_factory
    factory_output_stage := fun _ => ⟨40, 50, 60⟩
    registry_looper := plain_registry_looper
    plugins1 := []
    plugins2 := []
    plugins3 := []
    registry_channel_strips := []
    outputs := []
    ports := []
    nodes := [] }

/-- A single mono input whose left port path resolves in the snapshot. -/
def monoInputM : PmxInput :=
  ⟨"m", PmxInputType.monoInput, some "in:L", Option.none, "Drums"⟩

/-- An environment with one fully resolvable mono input: port "in:L" is port
3 on node 7 ("mic"), and the strip's cross-fader plugin id 10 resolves to
plugin "cf m". -/
def monoEnv : Env :=
  { inputs := [monoInputM]
    factory_strip := plain_factory
    factory_output_stage := fun _ => ⟨40, 50, 60⟩
    registry_looper := plain_registry_looper
    plugins1 := [⟨10, "cf m"⟩]
    plugins2 := []
    plugins3 := []
    registry_channel_strips := []
    outputs := []
    ports := [⟨3, "in:L", 7⟩]
    nodes := [⟨7, "mic"⟩] }

/-- The result `build_pmx` computes for `monoEnv`, written out in full. -/
def monoResult : BuildResult :=
  { channel_strip_requests := [⟨"m", PmxChannelStripType.crossFaded⟩]
    channel_strips := [⟨1, "m", PmxChannelStripType.crossFaded, some 10, 20, 30⟩]
    input_strip_links := [⟨3, 0, "mic", "cf m"⟩]
    looper_requests := [0]
    loopers := [⟨0⟩]
    looper_input_pairs := [(monoInputM, ⟨0⟩)]
    looper_input_links := [⟨2, 0, "sooperlooper", "mic"⟩]
    looper_input_logs := ["Connecting input m to looper 0",
      "Connecting mic:0 -> sooperlooper:2"]
    looper_strip_pairs :=
      [(⟨0⟩, ⟨1, "m", PmxChannelStripType.crossFaded, some 10, 20, 30⟩)]
    looper_strip_links := [⟨2, 2, "sooperlooper", "cf m"⟩,
      ⟨3, 3, "sooperlooper", "cf m"⟩]
    group_requests := [⟨"Drums", PmxChannelStripType.crossFaded⟩,
      ⟨"Bass", PmxChannelStripType.crossFaded⟩,
      ⟨"Melody", PmxChannelStripType.crossFaded⟩,
      ⟨"Atmos", PmxChannelStripType.crossFaded⟩]
    group_channel_strips :=
      ⟨⟨1, "Drums", PmxChannelStripType.crossFaded, some 10, 20, 30⟩,
       ⟨1, "Bass", PmxChannelStripType.crossFaded, some 10, 20, 30⟩,
       ⟨1, "Melody", PmxChannelStripType.crossFaded, some 10, 20, 30⟩,
       ⟨1, "Atmos", PmxChannelStripType.crossFaded, some 10, 20, 30⟩⟩
    group_links := []
    group_logs := ["Couldn\x27t find plugin"]
    output_stage_requests := ["Output Stage"]
    output_stage := ⟨40, 50, 60⟩
    group_output_links := []
    group_output_logs := ["Couldn\x27t find a channel strip"]
    output_links := [] }

/-- A stereo input whose two port paths both resolve in `portsW`. -/
def inputW : PmxInput :=
  ⟨"s", PmxInputType.stereoInput, some "L", some "R", "Drums"⟩

def portsW : List ListPort := [⟨3, "L", 7⟩, ⟨4, "R", 7⟩]

def nodesW : List ListNode := [⟨7, "mic"⟩]

def stripW : PmxChannelStrip :=
  ⟨1, "s", PmxChannelStripType.crossFaded, some 10, 20, 30⟩

def pluginsW : List PmxPlugin := [⟨10, "cf"⟩]

/-- The left input-to-looper request `connect_looper_to_input` issues for
`inputW` and looper 1. -/
def reqW : CreateLinkByNameRequest := ⟨4, 0, "sooperlooper", "mic"⟩

theorem find_with_unwrap_some (l : List α) (k : β) (pred : α → β → Bool) :
    find_with_unwrap l (some k) pred = some (l.find? (fun a => pred a k)) := by
  cases l <;> rfl

theorem find_with_unwrap_panic (l : List α) (pred : α → β → Bool)
    (h : l ≠ []) : find_with_unwrap l Option.none pred = Option.none := by
  cases l with
  | nil => exact absurd rfl h
  | cons a as => rfl

/-- Every request the left or right branch of `connect_looper_to_input`
produces comes from its request template applied to some resolved node. -/
theorem looper_side_req_shape (found : Option ListPort) (nodes : List ListNode)
    (mkreq : ListNode → CreateLinkByNameRequest) (mklog : ListNode → String) :
    ∀ req ∈ (looper_side found nodes mkreq mklog).1, ∃ node, req = mkreq node := by
  intro req h
  cases found with
  | none => simp [looper_side] at h
  | some port =>
    cases hf : nodes.find? (fun n => n.object_serial == port.node_id) with
    | none => simp [looper_side, hf] at h
    | some node =>
      simp [looper_side, hf] at h
      exact ⟨node, h⟩

/-- C10: a channel strip of type Basic, and a cross-faded channel strip whose
cross-fader plugin id matches no plugin in the snapshot, each make
`connect_looper_to_channel_strip` issue zero link requests and return
successfully, leaving the looper silently unwired. -/
theorem basic_or_unresolved_strip_unwired (looper : PmxLooper)
    (strip strip2 : PmxChannelStrip) (plugins : List PmxPlugin) (cfid : Nat)
    (hb : strip.channel_type = PmxChannelStripType.basic)
    (h2 : strip2.channel_type = PmxChannelStripType.crossFaded)
    (hid : strip2.cross_fader_plugin_id = some cfid)
    (hmiss : plugins.find? (fun p => p.id == cfid) = Option.none) :
    connect_looper_to_channel_strip looper strip plugins = some [] ∧
    connect_looper_to_channel_strip looper strip2 plugins = some [] := by
  constructor
  · simp [connect_looper_to_channel_strip, hb]
  · simp [connect_looper_to_channel_strip, h2, hid, find_with_unwrap_some, hmiss]

theorem basic_or_unresolved_strip_unwired_witness :
    connect_looper_to_channel_strip ⟨0⟩
      ⟨1, "b", PmxChannelStripType.basic, Option.none, 0, 0⟩ [] = some [] ∧
    connect_looper_to_channel_strip ⟨0⟩
      ⟨1, "c", PmxChannelStripType.crossFaded, some 5, 0, 0⟩ [] = some [] :=
  basic_or_unresolved_strip_unwired ⟨0⟩ _ _ [] 5 rfl rfl rfl rfl

/-- C4: at a concrete mono input whose left port "P:L" is port 7 on node
"mic", the request issued by `connect_looper_to_input` carries the fixed
looper node "sooperlooper" as its OUTPUT endpoint and the input's own node
"mic" as its INPUT endpoint, the reverse of the direction the claim states;
the log line the same code emits states the claimed direction
(mic:0 -> sooperlooper:2), contradicting the request it describes. -/
theorem looper_input_link_direction_reversed :
    connect_looper_to_input
      ⟨"mic in", PmxInputType.monoInput, some "P:L", Option.none, "Drums"⟩
      ⟨0⟩ [⟨7, "P:L", 5⟩] [⟨5, "mic"⟩] =
      some ([⟨2, 0, "sooperlooper", "mic"⟩],
            ["Connecting input mic in to looper 0",
             "Connecting mic:0 -> sooperlooper:2"]) := by decide

/-- C9 counterexample: a mono input with no left port path, wired against an
EMPTY ports snapshot, does not panic: the `unwrap` sits inside the find
closure, which is never evaluated on an empty list, so both wiring
operations return normally instead of panicking as the claim states. -/
theorem no_panic_on_empty_ports_snapshot :
    connect_looper_to_input
      ⟨"m", PmxInputType.monoInput, Option.none, Option.none, "Drums"⟩
      ⟨0⟩ [] [] = some ([], ["Connecting input m to looper 0"]) ∧
    connect_input_to_channel_strip
      ⟨"m", PmxInputType.monoInput, Option.none, Option.none, "Drums"⟩
      ⟨1, "m", PmxChannelStripType.crossFaded, Option.none, 0, 0⟩ [] [] [] =
      some [] := by decide

/-- C2 counterexample: in a full pipeline over one fully resolvable MONO
input, the input-to-looper stage issues one link request but the
looper-to-channel-strip stage issues two, not the "exactly one of each" the
claim states. -/
theorem mono_input_two_looper_strip_links :
    (build_pmx monoEnv).map
      (fun r => (r.looper_input_links.length, r.looper_strip_links.length)) =
      some (1, 2) ∧
    (build_pmx monoEnv).map
      (fun r => (r.looper_input_links.length, r.looper_strip_links.length)) ≠
      some (1, 1) := by decide

/-- C5 counterexample: at a concrete snapshot where output channel paths
"O:L"/"O:R" resolve to ports 10 and 11 on node "speakers" and the output
stage cross-fader is plugin "cf", BOTH issued requests carry output-port
index 0 (builder.rs lines 157 and 174); no request uses output-port index 1
as the claim states for the right channel. -/
theorem output_stage_right_link_uses_port_zero :
    connect_output_stage_to_outputs ⟨1, 0, 0⟩ [⟨some "O:L", some "O:R"⟩]
      [⟨10, "O:L", 5⟩, ⟨11, "O:R", 5⟩] [⟨5, "speakers"⟩] [⟨1, "cf"⟩] =
      [⟨0, 10, "cf", "speakers"⟩, ⟨0, 11, "cf", "speakers"⟩] ∧
    (connect_output_stage_to_outputs ⟨1, 0, 0⟩ [⟨some "O:L", some "O:R"⟩]
      [⟨10, "O:L", 5⟩, ⟨11, "O:R", 5⟩] [⟨5, "speakers"⟩] [⟨1, "cf"⟩]).map
      (fun r => r.output_port_id) ≠ [0, 1] := by decide

/-- C9 (amended): whenever the ports snapshot is nonempty, so that the find
closure containing the `unwrap` is evaluated at least once, an input of type
mono or stereo with no left port path makes both input wiring operations
panic, and a stereo input with a left path but no right path panics as well
(the strip is assumed to carry its cross-fader plugin id, as factory-created
cross-faded strips do). -/
theorem missing_port_path_panics (input input2 : PmxInput) (looper : PmxLooper)
    (channel : PmxChannelStrip) (plugins : List PmxPlugin)
    (ports : List ListPort) (nodes : List ListNode) (lp2 : String) (cfid : Nat)
    (hp : ports ≠ [])
    (htype : input.input_type ≠ PmxInputType.none)
    (hl : input.left_port_path = Option.none)
    (h2type : input2.input_type = PmxInputType.stereoInput)
    (h2l : input2.left_port_path = some lp2)
    (h2r : input2.right_port_path = Option.none)
    (hcf : channel.cross_fader_plugin_id = some cfid) :
    connect_looper_to_input input looper ports nodes = Option.none ∧
    connect_input_to_channel_strip input channel plugins ports nodes = Option.none ∧
    connect_looper_to_input input2 looper ports nodes = Option.none ∧
    connect_input_to_channel_strip input2 channel plugins ports nodes =
      Option.none := by
  refine ⟨?_, ?_, ?_, ?_⟩
  · simp [connect_looper_to_input, htype, hl, find_with_unwrap_panic _ _ hp]
  · simp [connect_input_to_channel_strip, htype, hl,
      find_with_unwrap_panic _ _ hp]
  · simp [connect_looper_to_input, h2type, h2l, h2r, find_with_unwrap_some,
      find_with_unwrap_panic _ _ hp]
  · simp [connect_input_to_channel_strip, h2type, h2l, h2r, hcf,
      find_with_unwrap_some, find_with_unwrap_panic _ _ hp]

theorem missing_port_path_panics_witness :
    connect_looper_to_input
      ⟨"a", PmxInputType.monoInput, Option.none, Option.none, "Drums"⟩
      ⟨0⟩ [⟨3, "L", 7⟩] [] = Option.none ∧
    connect_input_to_channel_strip
      ⟨"a", PmxInputType.monoInput, Option.none, Option.none, "Drums"⟩
      ⟨1, "a", PmxChannelStripType.crossFaded, some 10, 20, 30⟩ []
      [⟨3, "L", 7⟩] [] = Option.none ∧
    connect_looper_to_input
      ⟨"b", PmxInputType.stereoInput, some "L", Option.none, "Drums"⟩
      ⟨0⟩ [⟨3, "L", 7⟩] [] = Option.none ∧
    connect_input_to_channel_strip
      ⟨"b", PmxInputType.stereoInput, some "L", Option.none, "Drums"⟩
      ⟨1, "a", PmxChannelStripType.crossFaded, some 10, 20, 30⟩ []
      [⟨3, "L", 7⟩] [] = Option.none :=
  missing_port_path_panics
    ⟨"a", PmxInputType.monoInput, Option.none, Option.none, "Drums"⟩
    ⟨"b", PmxInputType.stereoInput, some "L", Option.none, "Drums"⟩
    ⟨0⟩ ⟨1, "a", PmxChannelStripType.crossFaded, some 10, 20, 30⟩ []
    [⟨3, "L", 7⟩] [] "L" 10 (by decide) (by decide) rfl rfl rfl rfl rfl

/-- C6: an input (mono or stereo) whose configured port paths match no port
in the snapshot gets zero link-creation requests from the
input-to-channel-strip wiring, no panic is raised (the strip is assumed to
carry its cross-fader plugin id, as factory-created cross-faded strips do),
and the loop continues with the remaining inputs unchanged. -/
theorem missing_input_port_skipped (input : PmxInput)
    (channel : PmxChannelStrip) (plugins : List PmxPlugin)
    (ports : List ListPort) (nodes : List ListNode) (rest : List PmxInput)
    (rests : List PmxChannelStrip) (lp rp : String) (cfid : Nat)
    (htype : input.input_type ≠ PmxInputType.none)
    (hl : input.left_port_path = some lp)
    (hlp : ports.find? (fun p => p.path == lp) = Option.none)
    (hcf : channel.cross_fader_plugin_id = some cfid)
    (hr : input.input_type = PmxInputType.stereoInput →
      input.right_port_path = some rp)
    (hrp : input.input_type = PmxInputType.stereoInput →
      ports.find? (fun p => p.path == rp) = Option.none) :
    connect_input_to_channel_strip input channel plugins ports nodes =
      some [] ∧
    connect_inputs_to_channel_strips (input :: rest) (channel :: rests)
      plugins ports nodes =
      connect_inputs_to_channel_strips rest rests plugins ports nodes := by
  have hbody : connect_input_to_channel_strip input channel plugins ports
      nodes = some [] := by
    cases ht : input.input_type with
    | none => exact absurd ht htype
    | monoInput =>
      simp [connect_input_to_channel_strip, ht, hl, hlp, hcf,
        find_with_unwrap_some]
    | stereoInput =>
      simp [connect_input_to_channel_strip, ht, hl, hlp, hcf, hr ht, hrp ht,
        find_with_unwrap_some]
  refine ⟨hbody, ?_⟩
  cases hres : connect_inputs_to_channel_strips rest rests plugins ports
      nodes with
  | none => simp [connect_inputs_to_channel_strips, hbody, hres]
  | some t => simp [connect_inputs_to_channel_strips, hbody, hres]

theorem missing_input_port_skipped_witness :
    connect_input_to_channel_strip
      ⟨"g", PmxInputType.monoInput, some "gone", Option.none, "Drums"⟩
      stripW pluginsW portsW nodesW = some [] ∧
    connect_inputs_to_channel_strips
      [⟨"g", PmxInputType.monoInput, some "gone", Option.none, "Drums"⟩]
      [stripW] pluginsW portsW nodesW =
      connect_inputs_to_channel_strips [] [] pluginsW portsW nodesW :=
  missing_input_port_skipped
    ⟨"g", PmxInputType.monoInput, some "gone", Option.none, "Drums"⟩
    stripW pluginsW portsW nodesW [] [] "gone" "x" 10
    (by decide) rfl (by decide) rfl (by intro h; cases h) (by intro h; cases h)

/-- C7: group-name matching is exact-string and case-sensitive: an input
whose declared group name is not exactly one of the four fixed bus names
gets no group link requests, an unmatched-group skip is logged, and the
loop continues with the next input. -/
theorem group_name_matching_case_sensitive (input_channel : PmxInput)
    (rest : List PmxInput) (channel_strips : List PmxChannelStrip)
    (group_channel_strips : GroupChannelStrips) (plugins : List PmxPlugin)
    (h : input_channel.group_channel_strip_name ∉
      (["Drums", "Bass", "Melody", "Atmos"] : List String)) :
    connect_channel_strip_to_group input_channel channel_strips
      group_channel_strips plugins =
      ([], ["Couldn\x27t find group channel " ++
        input_channel.group_channel_strip_name ++ " for input channel " ++
        input_channel.name]) ∧
    (connect_channel_strips_to_group_channel_strips (input_channel :: rest)
      channel_strips group_channel_strips plugins).1 =
      (connect_channel_strips_to_group_channel_strips rest channel_strips
        group_channel_strips plugins).1 := by
  simp only [List.mem_cons, List.mem_singleton, not_or] at h
  have hg : group_for_name group_channel_strips
      input_channel.group_channel_strip_name = Option.none := by
    simp [group_for_name, h.1, h.2.1, h.2.2.1, h.2.2.2]
  have h1 : connect_channel_strip_to_group input_channel channel_strips
      group_channel_strips plugins =
      ([], ["Couldn\x27t find group channel " ++
        input_channel.group_channel_strip_name ++ " for input channel " ++
        input_channel.name]) := by
    simp [connect_channel_strip_to_group, hg]
  exact ⟨h1, by
    simp [connect_channel_strips_to_group_channel_strips, h1]⟩

theorem group_name_matching_case_sensitive_witness :
    connect_channel_strip_to_group
      ⟨"m", PmxInputType.monoInput, Option.none, Option.none, "drums"⟩
      [] monoResult.group_channel_strips [] =
      ([], ["Couldn\x27t find group channel drums for input channel m"]) ∧
    (connect_channel_strips_to_group_channel_strips
      [⟨"m", PmxInputType.monoInput, Option.none, Option.none, "drums"⟩]
      [] monoResult.group_channel_strips []).1 =
      (connect_channel_strips_to_group_channel_strips [] []
        monoResult.group_channel_strips []).1 :=
  group_name_matching_case_sensitive
    ⟨"m", PmxInputType.monoInput, Option.none, Option.none, "drums"⟩
    [] [] monoResult.group_channel_strips [] (by decide)

/-- C5 (amended): for every output channel whose ports and nodes resolve,
the wiring issues exactly two link requests from the output stage's
cross-fader plugin, BOTH carrying output-port index 0, the first toward the
left physical port and the second toward the right physical port. -/
theorem output_stage_two_links_port_zero (output_stage : PmxOutputStage)
    (plugins : List PmxPlugin) (cfp : PmxPlugin) (oc : PmxOutput)
    (ports : List ListPort) (nodes : List ListNode) (lp rp : String)
    (lport rport : ListPort) (lnode rnode : ListNode)
    (hcf : plugins.find? (fun p => p.id == output_stage.cross_fader_plugin_id)
      = some cfp)
    (hl : oc.left_port_path = some lp) (hr : oc.right_port_path = some rp)
    (hlp : ports.find? (fun p => p.path == lp) = some lport)
    (hrp : ports.find? (fun p => p.path == rp) = some rport)
    (hln : nodes.find? (fun n => n.object_serial == lport.node_id) =
      some lnode)
    (hrn : nodes.find? (fun n => n.object_serial == rport.node_id) =
      some rnode) :
    connect_output_channel cfp oc ports nodes =
      [⟨0, lport.id, cfp.name, lnode.name⟩,
       ⟨0, rport.id, cfp.name, rnode.name⟩] ∧
    connect_output_stage_to_outputs output_stage [oc] ports nodes plugins =
      [⟨0, lport.id, cfp.name, lnode.name⟩,
       ⟨0, rport.id, cfp.name, rnode.name⟩] := by
  have h1 : connect_output_channel cfp oc ports nodes =
      [⟨0, lport.id, cfp.name, lnode.name⟩,
       ⟨0, rport.id, cfp.name, rnode.name⟩] := by
    simp [connect_output_channel, hl, hr, hlp, hrp, hln, hrn]
  exact ⟨h1, by
    simp [connect_output_stage_to_outputs, connect_output_channels_loop,
      hcf, h1]⟩

theorem output_stage_two_links_port_zero_witness :
    connect_output_channel ⟨1, "cf"⟩ ⟨some "O:L", some "O:R"⟩
      [⟨10, "O:L", 5⟩, ⟨11, "O:R", 5⟩] [⟨5, "speakers"⟩] =
      [⟨0, 10, "cf", "speakers"⟩, ⟨0, 11, "cf", "speakers"⟩] ∧
    connect_output_stage_to_outputs ⟨1, 0, 0⟩ [⟨some "O:L", some "O:R"⟩]
      [⟨10, "O:L", 5⟩, ⟨11, "O:R", 5⟩] [⟨5, "speakers"⟩] [⟨1, "cf"⟩] =
      [⟨0, 10, "cf", "speakers"⟩, ⟨0, 11, "cf", "speakers"⟩] :=
  output_stage_two_links_port_zero ⟨1, 0, 0⟩ [⟨1, "cf"⟩] ⟨1, "cf"⟩
    ⟨some "O:L", some "O:R"⟩ [⟨10, "O:L", 5⟩, ⟨11, "O:R", 5⟩]
    [⟨5, "speakers"⟩] "O:L" "O:R" ⟨10, "O:L", 5⟩ ⟨11, "O:R", 5⟩
    ⟨5, "speakers"⟩ ⟨5, "speakers"⟩ rfl rfl rfl rfl rfl rfl rfl

/-- C2 (amended): with all endpoints resolvable, a stereo input yields two
input-to-looper link requests and a mono input exactly one, while the
looper-to-channel-strip wiring is independent of the input type and issues
exactly two link requests per looper (so mono and none inputs also get
two); an input of type none yields zero input-to-looper and zero
input-to-channel-strip requests and is still processed identically by the
strip-to-group wiring, which never reads the input type. -/
theorem input_side_link_counts (input : PmxInput) (looper : PmxLooper)
    (strip : PmxChannelStrip) (ports : List ListPort) (nodes : List ListNode)
    (plugins plugins2 : List PmxPlugin)
    (channel_strips : List PmxChannelStrip) (groups : GroupChannelStrips)
    (lp rp : String) (lport rport : ListPort) (lnode rnode : ListNode)
    (cfid : Nat) (cfplugin : PmxPlugin)
    (hl : input.left_port_path = some lp)
    (hlp : ports.find? (fun p => p.path == lp) = some lport)
    (hln : nodes.find? (fun n => n.object_serial == lport.node_id) =
      some lnode)
    (hr : input.right_port_path = some rp)
    (hrp : ports.find? (fun p => p.path == rp) = some rport)
    (hrn : nodes.find? (fun n => n.object_serial == rport.node_id) =
      some rnode)
    (hcf : strip.channel_type = PmxChannelStripType.crossFaded)
    (hid : strip.cross_fader_plugin_id = some cfid)
    (hplug : plugins.find? (fun p => p.id == cfid) = some cfplugin) :
    (connect_looper_to_input input looper ports nodes).map
      (fun x => x.1.length) =
      some (match input.input_type with
            | PmxInputType.stereoInput => 2
            | PmxInputType.monoInput => 1
            | PmxInputType.none => 0) ∧
    (connect_looper_to_channel_strip looper strip plugins).map List.length =
      some 2 ∧
    (input.input_type = PmxInputType.none →
      connect_input_to_channel_strip input strip plugins ports nodes =
        some []) ∧
    connect_channel_strip_to_group input channel_strips groups plugins2 =
      connect_channel_strip_to_group
        { input with input_type := PmxInputType.stereoInput }
        channel_strips groups plugins2 := by
  refine ⟨?_, ?_, ?_, rfl⟩
  · cases ht : input.input_type with
    | none => simp [connect_looper_to_input, ht]
    | monoInput =>
      simp [connect_looper_to_input, ht, hl, find_with_unwrap_some, hlp,
        looper_side, hln]
    | stereoInput =>
      simp [connect_looper_to_input, ht, hl, hr, find_with_unwrap_some,
        hlp, hrp, looper_side, hln, hrn]
  · simp [connect_looper_to_channel_strip, hcf, hid, find_with_unwrap_some,
      hplug]
  · intro hn
    simp [connect_input_to_channel_strip, hn]

theorem input_side_link_counts_witness :
    (connect_looper_to_input inputW ⟨1⟩ portsW nodesW).map
      (fun x => x.1.length) = some 2 ∧
    (connect_looper_to_channel_strip ⟨1⟩ stripW pluginsW).map List.length =
      some 2 ∧
    (inputW.input_type = PmxInputType.none →
      connect_input_to_channel_strip inputW stripW pluginsW portsW nodesW =
        some []) ∧
    connect_channel_strip_to_group inputW [stripW]
      monoResult.group_channel_strips pluginsW =
      connect_channel_strip_to_group
        { inputW with input_type := PmxInputType.stereoInput } [stripW]
        monoResult.group_channel_strips pluginsW :=
  input_side_link_counts inputW ⟨1⟩ stripW portsW nodesW pluginsW pluginsW
    [stripW] monoResult.group_channel_strips "L" "R" ⟨3, "L", 7⟩ ⟨4, "R", 7⟩
    ⟨7, "mic"⟩ ⟨7, "mic"⟩ 10 ⟨10, "cf"⟩
    rfl rfl rfl rfl rfl rfl rfl rfl rfl

/-- C3: every request issued by the looper wiring carries the fixed node
"sooperlooper" and port indices computed from the loop number exactly as
the claim states: 2*loopNumber+2 (left) and 2*loopNumber+2+1 (right) for
the physical-input side, and loopNumber+2 / loopNumber+3 toward the channel
strip, the latter linked into the strip's cross-fader input ports 2 and 3. -/
theorem looper_port_arithmetic (input : PmxInput) (looper : PmxLooper)
    (ports : List ListPort) (nodes : List ListNode)
    (strip : PmxChannelStrip) (plugins : List PmxPlugin)
    (reqs : List CreateLinkByNameRequest) (logs : List String)
    (reqs2 : List CreateLinkByNameRequest)
    (h1 : connect_looper_to_input input looper ports nodes =
      some (reqs, logs))
    (h2 : connect_looper_to_channel_strip looper strip plugins = some reqs2) :
    (∀ req ∈ reqs, req.output_node_name = "sooperlooper" ∧
      ((req.output_port_id = 2 * looper.loop_number + 2 ∧
        req.input_port_id = 0) ∨
       (req.output_port_id = 2 * looper.loop_number + 2 + 1 ∧
        req.input_port_id = 1))) ∧
    (∀ req ∈ reqs2, req.output_node_name = "sooperlooper" ∧
      ((req.output_port_id = looper.loop_number + 2 ∧
        req.input_port_id = 2) ∨
       (req.output_port_id = looper.loop_number + 3 ∧
        req.input_port_id = 3))) := by
  constructor
  · intro req hreq
    simp only [connect_looper_to_input] at h1
    split at h1
    · simp only [Option.some.injEq, Prod.mk.injEq] at h1
      obtain ⟨rfl, rfl⟩ := h1
      simp at hreq
    · split at h1
      · exact Option.noConfusion h1
      · split at h1
        · simp only [Option.some.injEq, Prod.mk.injEq] at h1
          obtain ⟨rfl, rfl⟩ := h1
          obtain ⟨node, rfl⟩ := looper_side_req_shape _ _ _ _ req hreq
          exact ⟨rfl, Or.inl ⟨rfl, rfl⟩⟩
        · split at h1
          · exact Option.noConfusion h1
          · simp only [Option.some.injEq, Prod.mk.injEq] at h1
            obtain ⟨rfl, rfl⟩ := h1
            rcases List.mem_append.1 hreq with hmem | hmem
            · obtain ⟨node, rfl⟩ := looper_side_req_shape _ _ _ _ req hmem
              exact ⟨rfl, Or.inl ⟨rfl, rfl⟩⟩
            · obtain ⟨node, rfl⟩ := looper_side_req_shape _ _ _ _ req hmem
              refine ⟨rfl, Or.inr ⟨?_, rfl⟩⟩
              show 2 * looper.loop_number + 3 = 2 * looper.loop_number + 2 + 1
              omega
  · intro req hreq
    simp only [connect_looper_to_channel_strip] at h2
    split at h2
    · simp only [Option.some.injEq] at h2
      subst h2
      simp at hreq
    · split at h2
      · exact Option.noConfusion h2
      · split at h2
        · simp only [Option.some.injEq] at h2
          subst h2
          rcases List.mem_cons.1 hreq with rfl | hmem
          · exact ⟨rfl, Or.inl ⟨rfl, rfl⟩⟩
          · rcases List.mem_cons.1 hmem with rfl | hmem2
            · exact ⟨rfl, Or.inr ⟨rfl, rfl⟩⟩
            · simp at hmem2
        · simp only [Option.some.injEq] at h2
          subst h2
          simp at hreq

theorem looper_port_arithmetic_witness :
    reqW.output_node_name = "sooperlooper" ∧
    ((reqW.output_port_id = 2 * 1 + 2 ∧ reqW.input_port_id = 0) ∨
     (reqW.output_port_id = 2 * 1 + 2 + 1 ∧ reqW.input_port_id = 1)) :=
  (looper_port_arithmetic inputW ⟨1⟩ portsW nodesW stripW pluginsW
    [⟨4, 0, "sooperlooper", "mic"⟩, ⟨5, 1, "sooperlooper", "mic"⟩]
    ["Connecting input s to looper 1",
     "Connecting mic:0 -> sooperlooper:3",
     "Connecting mic:1 -> sooperlooper:4"]
    [⟨3, 2, "sooperlooper", "cf"⟩, ⟨4, 3, "sooperlooper", "cf"⟩]
    (by decide) (by decide)).1 reqW (by decide)

/-- From a successful pipeline run, read off how the creation stages and the
positional pairings of the wiring loops were computed. -/
theorem build_pmx_fields (env : Env) (r : BuildResult)
    (h : build_pmx env = some r) :
    r.channel_strip_requests =
      (build_channel_strips env.factory_strip env.inputs).1 ∧
    r.channel_strips = (build_channel_strips env.factory_strip env.inputs).2 ∧
    r.looper_requests =
      (register_loopers_for_input_channels env.registry_looper env.inputs).1 ∧
    r.loopers =
      (register_loopers_for_input_channels env.registry_looper env.inputs).2 ∧
    r.looper_input_pairs = env.inputs.zip r.loopers ∧
    r.looper_strip_pairs = r.loopers.zip r.channel_strips := by
  simp only [build_pmx, Option.bind_eq_bind, Option.bind_eq_some] at h
  obtain ⟨a, ha, b, hb, c, hc, h⟩ := h
  simp only [Option.some.injEq] at h
  subst h
  exact ⟨rfl, rfl, rfl, rfl, rfl, rfl⟩

/-- C1: for every input list returned by the registry, the pipeline issues
exactly one CreateChannelStrip request per input, in input order, the i-th
carrying the i-th input's name; it registers exactly N loopers with loop
numbers 0..N-1 in the same order; and the wiring stages pair positionally:
looper i is iterated against input i and against channel strip i (the
factory and registry are assumed to echo the requested name and loop
number, per their service contracts in the design document). -/
theorem pipeline_ordinal_correspondence (env : Env)
    (hf : ∀ q, (env.factory_strip q).name = q.name)
    (hlo : ∀ n, (env.registry_looper n).loop_number = n)
    (r : BuildResult) (h : build_pmx env = some r) :
    r.channel_strip_requests.map (fun q => q.name) =
      env.inputs.map (fun c => c.name) ∧
    r.channel_strip_requests.length = env.inputs.length ∧
    r.channel_strips.map (fun s => s.name) =
      env.inputs.map (fun c => c.name) ∧
    r.channel_strips.length = env.inputs.length ∧
    r.looper_requests = List.range env.inputs.length ∧
    r.loopers.map (fun l => l.loop_number) = List.range env.inputs.length ∧
    r.looper_input_pairs.map Prod.fst = env.inputs ∧
    r.looper_input_pairs.map Prod.snd = r.loopers ∧
    r.looper_strip_pairs.map Prod.fst = r.loopers ∧
    r.looper_strip_pairs.map Prod.snd = r.channel_strips := by
  obtain ⟨h1, h2, h3, h4, h5, h6⟩ := build_pmx_fields env r h
  have hstriplen : r.channel_strips.length = env.inputs.length := by
    simp [h2, build_channel_strips]
  have hlooplen : r.loopers.length = env.inputs.length := by
    simp [h4, register_loopers_for_input_channels]
  refine ⟨?_, ?_, ?_, hstriplen, ?_, ?_, ?_, ?_, ?_, ?_⟩
  · simp [h1, build_channel_strips, channel_strip_request]
  · simp [h1, build_channel_strips]
  · simp [h2, build_channel_strips, List.map_map, Function.comp,
      channel_strip_request, hf]
  · simp [h3, register_loopers_for_input_channels]
  · rw [h4]
    simp only [register_loopers_for_input_channels, List.map_map]
    rw [show ((fun l => l.loop_number) ∘ env.registry_looper) = fun n => n
      from funext fun n => hlo n]
    exact List.map_id' _
  · rw [h5]
    exact List.map_fst_zip _ _ (by rw [hlooplen])
  · rw [h5]
    exact List.map_snd_zip _ _ (by rw [hlooplen])
  · rw [h6]
    exact List.map_fst_zip _ _ (by rw [hstriplen, hlooplen])
  · rw [h6]
    exact List.map_snd_zip _ _ (by rw [hstriplen, hlooplen])

theorem pipeline_ordinal_correspondence_witness :
    monoResult.looper_requests = List.range monoEnv.inputs.length ∧
    monoResult.looper_input_pairs.map Prod.fst = monoEnv.inputs :=
  ⟨(pipeline_ordinal_correspondence monoEnv (fun _ => rfl) (fun _ => rfl)
      monoResult rfl).2.2.2.2.1,
   (pipeline_ordinal_correspondence monoEnv (fun _ => rfl) (fun _ => rfl)
      monoResult rfl).2.2.2.2.2.2.1⟩

/-- C8: with zero registry inputs a full pipeline run creates 0 channel
strips, registers 0 loopers, creates the 4 group buses Drums, Bass, Melody,
Atmos and 1 output stage named "Output Stage", and the
group-to-output-stage wiring stage still runs (here logging its skip,
because the referenced channel strips are absent from the registry
snapshot). -/
theorem empty_registry_pipeline (env : Env) (h : env.inputs = [])
    (h2 : env.registry_channel_strips = []) :
    (build_pmx env).map (fun r => r.channel_strip_requests) = some [] ∧
    (build_pmx env).map (fun r => r.channel_strips) = some [] ∧
    (build_pmx env).map (fun r => r.looper_requests) = some [] ∧
    (build_pmx env).map (fun r => r.loopers) = some [] ∧
    (build_pmx env).map (fun r => r.group_requests) = some
      [⟨"Drums", PmxChannelStripType.crossFaded⟩,
       ⟨"Bass", PmxChannelStripType.crossFaded⟩,
       ⟨"Melody", PmxChannelStripType.crossFaded⟩,
       ⟨"Atmos", PmxChannelStripType.crossFaded⟩] ∧
    (build_pmx env).map (fun r => r.output_stage_requests) =
      some ["Output Stage"] ∧
    (build_pmx env).map (fun r => (r.group_output_links, r.group_output_logs))
      = some (connect_group_channel_strips_to_output_stage_channels
        (build_group_channel_strips env.factory_strip).2
        (env.factory_output_stage "Output Stage") env.plugins3
        env.registry_channel_strips) ∧
    (build_pmx env).map (fun r => r.group_output_logs) =
      some ["Couldn\x27t find a channel strip"] := by
  obtain ⟨i, f, fo, rl, p1, p2, p3, rcs, outs, ports, nodes⟩ := env
  replace h : i = [] := h
  replace h2 : rcs = [] := h2
  subst h
  subst h2
  exact ⟨rfl, rfl, rfl, rfl, rfl, rfl, rfl, rfl⟩

theorem empty_registry_pipeline_witness :
    (build_pmx emptyEnv).map (fun r => r.group_requests) = some
      [⟨"Drums", PmxChannelStripType.crossFaded⟩,
       ⟨"Bass", PmxChannelStripType.crossFaded⟩,
       ⟨"Melody", PmxChannelStripType.crossFaded⟩,
       ⟨"Atmos", PmxChannelStripType.crossFaded⟩] ∧
    (build_pmx emptyEnv).map (fun r => r.output_stage_requests) =
      some ["Output Stage"] ∧
    (build_pmx emptyEnv).map (fun r => r.group_output_logs) =
      some ["Couldn\x27t find a channel strip"] :=
  ⟨(empty_registry_pipeline emptyEnv rfl rfl).2.2.2.2.1,
   (empty_registry_pipeline emptyEnv rfl rfl).2.2.2.2.2.1,
   (empty_registry_pipeline emptyEnv rfl rfl).2.2.2.2.2.2.2⟩

end PmxBuilder
